import Mathlib

/-!
Shallow embedding of the session-scoped dialogue orchestrator in
`mentalbot.py` (class `MentalBot` and the module-level wrapper
`chat_with_bot`), together with theorems settling the frozen claims.

Modelling conventions:
* JSON bodies returned by the two upstream services are values of an
  inductive `Json` type (strings, integers, arrays, objects).
* Python exceptions are values of `PyErr`; fallible operations return
  `Except PyErr _`.  `chat` returns its result together with the final
  store state, since Python mutates `self.sessions` in place even when an
  exception propagates.
* Wall-clock time is a natural number of minutes (`datetime.now()` is a
  per-call `now` supplied by the environment; the 30-minute
  `session_timeout` becomes the constant `30`).
* Network nondeterminism (each `requests.post` outcome, the freshly drawn
  `uuid4`, the IAM token exchange) is an `Env` record supplied per call.
* Python `str()` of a parsed-JSON value is modelled by `pyStr`/`pyRepr`
  (single-quoted containers; string-escaping subtleties are not modelled,
  the payloads of interest are plain text).
-/

/-- JSON values as produced by `response.json()`. -/
inductive Json where
  | str (s : String)
  | num (n : Int)
  | arr (xs : List Json)
  | obj (fields : List (String × Json))
deriving Repr

/-- Python exceptions that the orchestrator code can raise. -/
inductive PyErr where
  | keyError (k : String)
  | indexError
  | typeError
  | attrError
deriving Repr, DecidableEq

/-- Is `pat` a prefix of `s` (on character lists)? -/
def charsHasPre : List Char → List Char → Bool
  | [], _ => true
  | _ :: _, [] => false
  | p :: ps, c :: cs => p == c && charsHasPre ps cs

/-- Does `s` contain `pat` as a contiguous run (on character lists)? -/
def charsHasSub (pat : List Char) : List Char → Bool
  | [] => charsHasPre pat []
  | c :: cs => charsHasPre pat (c :: cs) || charsHasSub pat cs

/-- Python's substring test `pat in s`. -/
def strHasSub (s pat : String) : Bool :=
  charsHasSub pat.data s.data

mutual

/-- Python `repr()` of a parsed-JSON value (string escaping not modelled). -/
def pyRepr : Json → String
  | .str s => "\x27" ++ s ++ "\x27"
  | .num n => toString n
  | .arr xs => "[" ++ pyReprList xs ++ "]"
  | .obj kvs => "\x7b" ++ pyReprObj kvs ++ "\x7d"

/-- Comma-separated `repr()`s of the elements of a Python list. -/
def pyReprList : List Json → String
  | [] => ""
  | [x] => pyRepr x
  | x :: tl => pyRepr x ++ ", " ++ pyReprList tl

/-- Comma-separated `'key': repr(value)` entries of a Python dict. -/
def pyReprObj : List (String × Json) → String
  | [] => ""
  | [(k, v)] => "\x27" ++ k ++ "\x27: " ++ pyRepr v
  | (k, v) :: tl => "\x27" ++ k ++ "\x27: " ++ pyRepr v ++ ", " ++ pyReprObj tl

end

/-- Python `str()` of a parsed-JSON value: raw for strings, `repr` otherwise. -/
def pyStr : Json → String
  | .str s => s
  | j => pyRepr j

/-- Python truthiness of a parsed-JSON value. -/
def pyTruthy : Json → Bool
  | .str s => s != ""
  | .num n => n != 0
  | .arr xs => !xs.isEmpty
  | .obj kvs => !kvs.isEmpty

/-- Python membership test `key in j` (raises `TypeError` on a number). -/
def pyIn (key : String) : Json → Except PyErr Bool
  | .obj kvs => .ok (kvs.any (fun kv => kv.1 == key))
  | .arr xs => .ok (xs.any (fun x => match x with | .str s => s == key | _ => false))
  | .str s => .ok (strHasSub s key)
  | .num _ => .error .typeError

/-- Python string-key indexing `j[key]`. -/
def pyIndex (j : Json) (key : String) : Except PyErr Json :=
  match j with
  | .obj kvs =>
    match kvs.lookup key with
    | some v => .ok v
    | none => .error (.keyError key)
  | _ => .error .typeError

/-- Python integer indexing `j[i]` (dict keys are strings here, so a dict raises `KeyError`). -/
def pyIndexNat (j : Json) (i : Nat) : Except PyErr Json :=
  match j with
  | .arr xs =>
    match xs[i]? with
    | some v => .ok v
    | none => .error .indexError
  | .str s => if i < s.length then .ok (.str (String.singleton (s.data.getD i ' '))) else .error .indexError
  | .obj _ => .error (.keyError (toString i))
  | .num _ => .error .typeError

/-- One conversation turn `{"role": ..., "content": ...}`. -/
structure Turn where
  role : String
  content : Json
deriving Repr

/-- One entry of `self.sessions` (`_create_session` shape). -/
structure Session where
  created_at : Nat
  last_accessed : Nat
  context : List (String × Json)
  conversation_history : List Turn
deriving Repr

/-- The mutable state of a `MentalBot` instance relevant to the claims. -/
structure BotState where
  sessions : List (String × Session)
  watsonx_token : String
deriving Repr

/-- Outcome of one `requests.post` call: a raised exception, or a status and JSON body. -/
inductive HttpOutcome where
  | exn
  | resp (status : Nat) (body : Json)
deriving Repr

/-- Per-call environment: current time, the `uuid4` draw, and the upstream behaviors. -/
structure Env where
  now : Nat
  freshId : String
  assistantHttp : HttpOutcome
  genHttp1 : HttpOutcome
  iamHttp : Option String
  genHttp2 : HttpOutcome
deriving Repr

/-- `self.session_timeout = timedelta(minutes=30)`, in minutes. -/
def session_timeout : Nat := 30

/-- Association-list update mirroring Python dict assignment `d[k] = v`. -/
def updList (k : String) (v : Session) : List (String × Session) → List (String × Session)
  | [] => [(k, v)]
  | (k0, v0) :: rest => if k0 == k then (k, v) :: rest else (k0, v0) :: updList k v rest

/-- Conversation history of the session stored under `sid`, if any. -/
def histOf (st : BotState) (sid : String) : Option (List Turn) :=
  (st.sessions.lookup sid).map (fun s => s.conversation_history)

/-- `MentalBot._create_session`: fresh uuid, empty history, current timestamps. -/
def create_session (env : Env) (st : BotState) : String × BotState :=
  let fresh : Session :=
    { created_at := env.now, last_accessed := env.now, context := [],
      conversation_history := [] }
  (env.freshId, { st with sessions := updList env.freshId fresh st.sessions })

/-- `MentalBot._get_or_create_session` (the `if session_id` test is Python
truthiness, so an empty-string id is treated like an absent one). -/
def get_or_create_session (env : Env) (st : BotState) (session_id : Option String) :
    String × BotState :=
  match session_id with
  | some sid =>
    if sid != "" then
      match st.sessions.lookup sid with
      | some session =>
        if env.now - session.last_accessed < session_timeout then
          let touched : Session := { session with last_accessed := env.now }
          (sid, { st with sessions := updList sid touched st.sessions })
        else create_session env st
      | none => create_session env st
    else create_session env st
  | none => create_session env st

/-- `MentalBot.get_assistant_intent`: the body on HTTP 200, `None` on any
other status or on a raised exception. -/
def get_assistant_intent (env : Env) : Option Json :=
  match env.assistantHttp with
  | .exn => none
  | .resp status body => if status == 200 then some body else none

/-- The last-two-turns window `conversation_history[-2:]`. -/
def lastTwo (l : List Turn) : List Turn :=
  l.drop (l.length - 2)

/-- One history turn rendered for the prompt: `f"{msg['role']}: {msg['content']}"`. -/
def renderTurn (msg : Turn) : String :=
  msg.role ++ ": " ++ pyStr msg.content

/-- The fixed instruction preamble of the prompt (first line, with its newline). -/
def prompt_preamble : String :=
  "\"Offer personalized, empathetic, and achievable solutions for users facing mental health challenges, ensuring responses are compassionate and provide actionable advice.\"\n"

/-- One few-shot example pair as laid out in the prompt (leading blank line,
`Input:`/`Output:` lines each ending in two spaces). -/
def prompt_example (inp outp : String) : String :=
  "\nInput: \"" ++ inp ++ "\"  \nOutput: \"" ++ outp ++ "\"  \n"

/-- Input text of the first hard-coded few-shot example. -/
def ex1_input : String := "I\x27ve been feeling really overwhelmed and can\x27t focus on my tasks."

/-- Output text of the first hard-coded few-shot example. -/
def ex1_output : String := "It\x27s okay to feel overwhelmed. Start by taking a few moments to step away and breathe deeply. Breaking your tasks into smaller, manageable steps might help you regain focus. I can guide you through a simple prioritization exercise if you\x27d like."

/-- Input text of the second hard-coded few-shot example. -/
def ex2_input : String := "I keep doubting my abilities and feel like I\x27m not good enough."

/-- Output text of the second hard-coded few-shot example (the source file
contains the mojibake bytes U+00E2 U+20AC U+201D where an em-dash was meant). -/
def ex2_output : String := "Self-doubt can be hard to face, but it doesn\x27t define you. Reflect on moments where you overcame challengesâ€”that\x27s evidence of your capabilities. If you\x27d like, I can suggest ways to build your confidence gradually."

/-- Input text of the third hard-coded few-shot example. -/
def ex3_input : String := "I feel disconnected from everyone and don\x27t know how to fix it."

/-- Output text of the third hard-coded few-shot example. -/
def ex3_output : String := "Feeling disconnected can be isolating, but small steps can help rebuild connections. Reaching out to a trusted friend for a short conversation or engaging in a group activity can make a difference. Let me know if you\x27d like suggestions for activities or conversation starters."

/-- Input text of the fourth hard-coded few-shot example. -/
def ex4_input : String := "I think I need a break, but I don\x27t know how to justify it to my team."

/-- Output text of the fourth hard-coded few-shot example. -/
def ex4_output : String := "Taking a break is essential for your well-being. You could frame it to your team as a way to recharge and bring your best self to work. I can help you draft a supportive message to explain this to them if you\x27d like."

/-- The `Previous Context: ` header (with its leading blank line). -/
def prompt_context_header : String := "\nPrevious Context: "

/-- The current-user-text section of the prompt. -/
def prompt_user_section (user_input : String) : String :=
  "\n\nInput: \"" ++ user_input ++ "\"\n"

/-- The trailing cue token the generation service is asked to complete. -/
def prompt_cue : String := "Output:\"\n"

/-- The prompt f-string of `MentalBot.get_model_response`, with its literal
segments verbatim and the two interpolations (`' '.join(...)` over
`conversation_history[-2:]`, and `user_input`). -/
def buildPrompt (user_input : String) (conversation_history : List Turn) : String :=
  "\"Offer personalized, empathetic, and achievable solutions for users facing mental health challenges, ensuring responses are compassionate and provide actionable advice.\"\n\nInput: \"I\x27ve been feeling really overwhelmed and can\x27t focus on my tasks.\"  \nOutput: \"It\x27s okay to feel overwhelmed. Start by taking a few moments to step away and breathe deeply. Breaking your tasks into smaller, manageable steps might help you regain focus. I can guide you through a simple prioritization exercise if you\x27d like.\"  \n\nInput: \"I keep doubting my abilities and feel like I\x27m not good enough.\"  \nOutput: \"Self-doubt can be hard to face, but it doesn\x27t define you. Reflect on moments where you overcame challengesâ€”that\x27s evidence of your capabilities. If you\x27d like, I can suggest ways to build your confidence gradually.\"  \n\nInput: \"I feel disconnected from everyone and don\x27t know how to fix it.\"  \nOutput: \"Feeling disconnected can be isolating, but small steps can help rebuild connections. Reaching out to a trusted friend for a short conversation or engaging in a group activity can make a difference. Let me know if you\x27d like suggestions for activities or conversation starters.\"  \n\nInput: \"I think I need a break, but I don\x27t know how to justify it to my team.\"  \nOutput: \"Taking a break is essential for your well-being. You could frame it to your team as a way to recharge and bring your best self to work. I can help you draft a supportive message to explain this to them if you\x27d like.\"  \n\nPrevious Context: "
  ++ String.intercalate " " ((lastTwo conversation_history).map renderTurn)
  ++ "\n\nInput: \"" ++ user_input ++ "\"\nOutput:\"\n"

/-- ASCII whitespace stripped by Python's `str.strip()`. -/
def isPyWhitespace (c : Char) : Bool :=
  c == ' ' || c == '\t' || c == '\n' || c == '\r' || c == '\x0b' || c == '\x0c'

/-- Python `str.strip()`: remove leading and trailing whitespace. -/
def pyStrip (s : String) : String :=
  String.mk (((s.data.dropWhile isPyWhitespace).reverse.dropWhile isPyWhitespace).reverse)

/-- Extraction `response.json()['results'][0]['generated_text'].strip()`; a
missing field raises (`KeyError`/`IndexError`), `.strip()` on a non-string
raises `AttributeError`, all caught by the surrounding `try`. -/
def extractGenText (body : Json) : Except PyErr String := do
  let results ← pyIndex body "results"
  let first ← pyIndexNat results 0
  let gt ← pyIndex first "generated_text"
  match gt with
  | .str s => .ok (pyStrip s)
  | _ => .error .attrError

/-- Observable outcome of one `MentalBot.get_model_response` call: the return
value, how many times `_get_iam_token` was invoked, how many POSTs were sent
to the generation endpoint, the token cached afterwards, and the prompt that
was sent. -/
structure GenOutcome where
  result : Option String
  refreshCalls : Nat
  requests : Nat
  token : String
  prompt : String
deriving Repr

/-- `MentalBot.get_model_response`: POST once; on 200 return the stripped
generated text (malformed bodies raise and are caught, giving `None`); on 401
refresh the token once (a failed refresh raises and is caught, giving `None`
with no retry) and re-issue the identical request once, a 200 retry giving its
text and anything else `None`; any other status or a raised exception gives
`None`. -/
def get_model_response (env : Env) (st : BotState) (user_input : String)
    (conversation_history : List Turn) : GenOutcome :=
  let prompt := buildPrompt user_input conversation_history
  match env.genHttp1 with
  | .exn =>
    { result := none, refreshCalls := 0, requests := 1, token := st.watsonx_token,
      prompt := prompt }
  | .resp status body =>
    if status == 200 then
      match extractGenText body with
      | .ok s =>
        { result := some s, refreshCalls := 0, requests := 1, token := st.watsonx_token,
          prompt := prompt }
      | .error _ =>
        { result := none, refreshCalls := 0, requests := 1, token := st.watsonx_token,
          prompt := prompt }
    else if status == 401 then
      match env.iamHttp with
      | none =>
        { result := none, refreshCalls := 1, requests := 1, token := st.watsonx_token,
          prompt := prompt }
      | some tok =>
        match env.genHttp2 with
        | .exn =>
          { result := none, refreshCalls := 1, requests := 2, token := tok, prompt := prompt }
        | .resp status2 body2 =>
          if status2 == 200 then
            match extractGenText body2 with
            | .ok s =>
              { result := some s, refreshCalls := 1, requests := 2, token := tok,
                prompt := prompt }
            | .error _ =>
              { result := none, refreshCalls := 1, requests := 2, token := tok,
                prompt := prompt }
          else
            { result := none, refreshCalls := 1, requests := 2, token := tok, prompt := prompt }
    else
      { result := none, refreshCalls := 0, requests := 1, token := st.watsonx_token,
        prompt := prompt }

/-- The return value of `get_model_response` depends only on the upstream
behavior, not on the bot state, the user text or the history. -/
def modelResult (env : Env) : Option String :=
  (get_model_response env { sessions := [], watsonx_token := "" } "" []).result

/-- The needs-generation marker intent searched for in the stringified
classification response. -/
def marker : String := "action_3200_intent_45093-2"

/-- The fixed fallback apology string of `MentalBot.chat`. -/
def fallback_text : String := "I apologize, but I\x27m having trouble generating a response."

/-- The unified return value of `MentalBot.chat`. -/
structure ChatResult where
  response : Json
  session_id : String
  source : String
deriving Repr

/-- Observable outcome of one `MentalBot.chat` call: the returned value or the
propagated exception, the bot state afterwards, and how many times the
generation adapter (`get_model_response`) was invoked. -/
structure ChatOut where
  result : Except PyErr ChatResult
  state : BotState
  genCalls : Nat
deriving Repr

/-- The final fallback block of `MentalBot.chat`: append the apology as the
assistant turn and return it with `source='fallback'`. -/
def chat_fallback (st : BotState) (sid : String) (sess : Session) (hist1 : List Turn)
    (gc : Nat) : ChatOut :=
  let sess2 : Session :=
    { sess with conversation_history := hist1 ++ [⟨"assistant", Json.str fallback_text⟩] }
  { result := .ok { response := Json.str fallback_text, session_id := sid,
                    source := "fallback" },
    state := { st with sessions := updList sid sess2 st.sessions },
    genCalls := gc }

/-- The direct-reply extraction `assistant_response['output']['generic'][0]['text']`
of `MentalBot.chat`; it runs outside any `try`, so failures propagate. -/
def extractAssistantText (j : Json) : Except PyErr Json := do
  let output ← pyIndex j "output"
  let generic ← pyIndex output "generic"
  let first ← pyIndexNat generic 0
  pyIndex first "text"

/-- The needs-generation decision of `MentalBot.chat`: a falsy (or absent)
classification response forces generation, a truthy one forces it exactly when
the marker occurs somewhere in its `str()` rendering. -/
def needsGen (env : Env) : Bool :=
  match get_assistant_intent env with
  | some j => if pyTruthy j then strHasSub (pyStr j) marker else true
  | none => true

/-- `MentalBot.chat`: resolve the session, append the user turn, classify,
choose the generation / direct-classification / fallback path, append the
assistant turn, and return `{response, session_id, source}`. -/
def chat (env : Env) (st0 : BotState) (user_input : String)
    (session_id : Option String := none) : ChatOut :=
  let resolved := get_or_create_session env st0 session_id
  let sid := resolved.1
  let st1 := resolved.2
  match st1.sessions.lookup sid with
  | none => { result := .error (.keyError sid), state := st1, genCalls := 0 }
  | some sess =>
    let hist1 := sess.conversation_history ++ [⟨"user", Json.str user_input⟩]
    let sess1 : Session := { sess with conversation_history := hist1 }
    let st2 : BotState := { st1 with sessions := updList sid sess1 st1.sessions }
    let assistant_response := get_assistant_intent env
    let needs_model_response : Bool := needsGen env
    if needs_model_response then
      let g := get_model_response env st2 user_input hist1
      let st3 : BotState := { st2 with watsonx_token := g.token }
      match g.result with
      | some text =>
        if text != "" then
          let sess2 : Session :=
            { sess with conversation_history := hist1 ++ [⟨"assistant", Json.str text⟩] }
          { result := .ok { response := Json.str text, session_id := sid,
                            source := "model" },
            state := { st3 with sessions := updList sid sess2 st3.sessions },
            genCalls := 1 }
        else chat_fallback st3 sid sess hist1 1
      | none => chat_fallback st3 sid sess hist1 1
    else
      match assistant_response with
      | some j =>
        if pyTruthy j then
          match pyIn "output" j with
          | .error e => { result := .error e, state := st2, genCalls := 0 }
          | .ok true =>
            match extractAssistantText j with
            | .error e => { result := .error e, state := st2, genCalls := 0 }
            | .ok t =>
              let sess2 : Session :=
                { sess with conversation_history := hist1 ++ [⟨"assistant", t⟩] }
              { result := .ok { response := t, session_id := sid, source := "assistant" },
                state := { st2 with sessions := updList sid sess2 st2.sessions },
                genCalls := 0 }
          | .ok false => chat_fallback st2 sid sess hist1 0
        else chat_fallback st2 sid sess hist1 0
      | none => chat_fallback st2 sid sess hist1 0

/-- The module-level entry point `chat_with_bot(message)`: it calls
`bot.chat(message)`, leaving `session_id` at its default `None`. -/
def chat_with_bot (env : Env) (st : BotState) (message : String) : ChatOut :=
  chat env st message

/-- An empty bot state: no stored sessions, some cached token. -/
def st_empty : BotState := { sessions := [], watsonx_token := "tok0" }

/-- Upstream behavior: classification 200 with `output` present but no `generic` list. -/
def envC1 : Env :=
  { now := 0, freshId := "c1",
    assistantHttp := .resp 200 (Json.obj [("output", Json.obj [])]),
    genHttp1 := .exn, iamHttp := none, genHttp2 := .exn }

/-- Upstream behavior: both services raise network exceptions. -/
def envW1 : Env :=
  { now := 0, freshId := "w1", assistantHttp := .exn,
    genHttp1 := .exn, iamHttp := none, genHttp2 := .exn }

/-- Upstream behavior: classification 200 with an empty `generic` list. -/
def envC2 : Env :=
  { now := 0, freshId := "c2",
    assistantHttp := .resp 200 (Json.obj [("output", Json.obj [("generic", Json.arr [])])]),
    genHttp1 := .exn, iamHttp := none, genHttp2 := .exn }

/-- Upstream behavior: classification returns a non-success status. -/
def envW2 : Env :=
  { now := 0, freshId := "w2", assistantHttp := .resp 500 (Json.obj []),
    genHttp1 := .exn, iamHttp := none, genHttp2 := .exn }

/-- Upstream behavior: classification unreachable, generation 200 with text `ok`. -/
def envC3 : Env :=
  { now := 0, freshId := "c3", assistantHttp := .exn,
    genHttp1 := .resp 200 (Json.obj [("results",
      Json.arr [Json.obj [("generated_text", Json.str "ok")]])]),
    iamHttp := none, genHttp2 := .exn }

/-- Upstream behavior: classification 200 with a well-formed direct reply, no marker. -/
def envW3 : Env :=
  { now := 0, freshId := "w3",
    assistantHttp := .resp 200 (Json.obj [("output", Json.obj [("generic",
      Json.arr [Json.obj [("response_type", Json.str "text"),
                          ("text", Json.str "direct reply")]])])]),
    genHttp1 := .exn, iamHttp := none, genHttp2 := .exn }

/-- A store holding one session last accessed at time 0. -/
def stW4 : BotState :=
  { sessions := [("a", { created_at := 0, last_accessed := 0, context := [],
                         conversation_history := [] })],
    watsonx_token := "t" }

/-- A call environment at time 5 with fresh uuid `f`. -/
def envW4 : Env :=
  { now := 5, freshId := "f", assistantHttp := .exn,
    genHttp1 := .exn, iamHttp := none, genHttp2 := .exn }

/-- Upstream behavior: generation 401 and the IAM token exchange itself fails. -/
def envC5 : Env :=
  { now := 0, freshId := "c5", assistantHttp := .exn,
    genHttp1 := .resp 401 (Json.obj []), iamHttp := none, genHttp2 := .exn }

/-- Upstream behavior: generation 401, then a successful refresh and a 200 retry. -/
def envW5 : Env :=
  { now := 0, freshId := "w5", assistantHttp := .exn,
    genHttp1 := .resp 401 (Json.obj []), iamHttp := some "tok2",
    genHttp2 := .resp 200 (Json.obj [("results",
      Json.arr [Json.obj [("generated_text", Json.str " fine ")]])]) }

/-- Upstream behavior: classification carries both the marker intent and a direct reply. -/
def envW6 : Env :=
  { now := 0, freshId := "w6",
    assistantHttp := .resp 200 (Json.obj [("intents",
      Json.arr [Json.obj [("intent", Json.str "action_3200_intent_45093-2")]]),
      ("output", Json.obj [("generic",
        Json.arr [Json.obj [("text", Json.str "direct reply")]])])]),
    genHttp1 := .exn, iamHttp := none, genHttp2 := .exn }

/-- Upstream behavior: classification raises, generation returns 503. -/
def envW7 : Env :=
  { now := 0, freshId := "w7", assistantHttp := .exn,
    genHttp1 := .resp 503 (Json.obj []), iamHttp := none, genHttp2 := .exn }

/-- Upstream behavior irrelevant to prompt construction (all calls fail). -/
def envW8 : Env :=
  { now := 0, freshId := "w8", assistantHttp := .exn,
    genHttp1 := .exn, iamHttp := none, genHttp2 := .exn }

/-- A first history turn. -/
def turnA : Turn := ⟨"user", Json.str "first"⟩

/-- A second history turn. -/
def turnB : Turn := ⟨"assistant", Json.str "second"⟩

/-- A third history turn. -/
def turnC : Turn := ⟨"user", Json.str "third"⟩

/-- Upstream behavior: both adapters unreachable (for the wrapper scenario). -/
def envW9 : Env :=
  { now := 0, freshId := "w9", assistantHttp := .exn,
    genHttp1 := .exn, iamHttp := none, genHttp2 := .exn }

/-- Upstream behavior: classification 200 with an empty (falsy) body. -/
def envC10 : Env :=
  { now := 0, freshId := "c10", assistantHttp := .resp 200 (Json.obj []),
    genHttp1 := .exn, iamHttp := none, genHttp2 := .exn }

/-- Upstream behavior: the marker occurs only inside the direct reply text. -/
def envW10 : Env :=
  { now := 0, freshId := "w10",
    assistantHttp := .resp 200 (Json.obj [("output", Json.obj [("generic",
      Json.arr [Json.obj [("text",
        Json.str "escalating to action_3200_intent_45093-2 now")]])])]),
    genHttp1 := .exn, iamHttp := none, genHttp2 := .exn }

theorem lookup_updList_self (k : String) (v : Session) (l : List (String × Session)) :
    (updList k v l).lookup k = some v := by
  induction l with
  | nil => simp [updList, List.lookup]
  | cons p rest ih =>
    rcases p with ⟨k0, v0⟩
    by_cases h : k0 = k
    · subst h
      simp [updList, List.lookup]
    · have hb : (k0 == k) = false := beq_eq_false_iff_ne.mpr h
      have hb2 : (k == k0) = false := beq_eq_false_iff_ne.mpr (Ne.symm h)
      simp [updList, List.lookup, hb, hb2, ih]

theorem lookup_updList_ne (k k2 : String) (v : Session) (l : List (String × Session))
    (h : k2 ≠ k) : (updList k v l).lookup k2 = l.lookup k2 := by
  have hb : (k2 == k) = false := beq_eq_false_iff_ne.mpr h
  induction l with
  | nil => simp [updList, List.lookup, hb]
  | cons p rest ih =>
    rcases p with ⟨k0, v0⟩
    by_cases h0 : k0 = k
    · subst h0
      simp [updList, List.lookup, hb]
    · have hb0 : (k0 == k) = false := beq_eq_false_iff_ne.mpr h0
      simp only [updList, hb0, if_neg, List.lookup, Bool.false_eq_true, ite_false]
      cases hc : k2 == k0 <;> simp [List.lookup, hc, ih]

theorem resolve_stores (env : Env) (st : BotState) (osid : Option String) :
    ∃ sess, ((get_or_create_session env st osid).2).sessions.lookup
      (get_or_create_session env st osid).1 = some sess := by
  unfold get_or_create_session create_session
  repeat' split
  all_goals simp [lookup_updList_self]

theorem chat_hist_shape (env : Env) (st : BotState) (u : String) (osid : Option String)
    (sid : String) (st1 : BotState) (sess : Session)
    (hrp : get_or_create_session env st osid = (sid, st1))
    (hl : st1.sessions.lookup sid = some sess) :
    (∀ r, (chat env st u osid).result = .ok r → r.session_id = sid ∧
        histOf (chat env st u osid).state sid =
          some (sess.conversation_history ++ [⟨"user", Json.str u⟩, ⟨"assistant", r.response⟩]))
    ∧ (∀ e, (chat env st u osid).result = .error e →
        histOf (chat env st u osid).state sid =
          some (sess.conversation_history ++ [⟨"user", Json.str u⟩])) := by
  simp only [chat, hrp, hl]
  repeat' split
  all_goals constructor
  all_goals intro x hx
  all_goals simp_all [chat_fallback, histOf, lookup_updList_self]
  all_goals subst hx
  all_goals simp

theorem gen_result_eq (env : Env) (st : BotState) (u : String) (h : List Turn) :
    (get_model_response env st u h).result = modelResult env := by
  unfold modelResult get_model_response
  repeat' split
  all_goals simp_all

theorem gen_prompt_eq (env : Env) (st : BotState) (u : String) (h : List Turn) :
    (get_model_response env st u h).prompt = buildPrompt u h := by
  unfold get_model_response
  repeat' split
  all_goals rfl

theorem marker_needs_truthy (j : Json) (hm : strHasSub (pyStr j) marker = true) :
    pyTruthy j = true := by
  by_contra hf
  have hf2 : pyTruthy j = false := by
    cases hp : pyTruthy j
    · rfl
    · exact absurd hp hf
  rcases j with s | n | xs | kvs
  · have hs : s = "" := by
      simpa [pyTruthy, String.ext_iff] using hf2
    subst hs
    revert hm
    decide
  · have hn : n = 0 := by
      simpa [pyTruthy] using hf2
    subst hn
    revert hm
    decide
  · have hx : xs = [] := by
      simpa [pyTruthy, List.isEmpty_iff] using hf2
    subst hx
    revert hm
    decide
  · have hx : kvs = [] := by
      simpa [pyTruthy, List.isEmpty_iff] using hf2
    subst hx
    revert hm
    decide

/-- C1 (counterexample): a 200 classification body whose `output` lacks a
`generic` list makes `chat` raise a `KeyError` after the user turn was
appended, so the session is left with a dangling user turn and the history
grew by 1, not 2. -/
theorem chat_dangling_user_turn_cex :
    (chat envC1 st_empty "hello" none).result = .error (.keyError "generic") ∧
    histOf (chat envC1 st_empty "hello" none).state "c1" =
      some [⟨"user", Json.str "hello"⟩] := by
  constructor
  · rfl
  · rfl

/-- C1 (amended): on every invocation of `chat` that returns normally, the
resolved session's history grows by exactly the user turn followed by the
assistant turn carrying the returned response; on the uncaught
malformed-classification exception path only the user turn is appended, so
the dangling-user-turn guarantee holds only for normal returns. -/
theorem chat_appends_user_then_assistant (env : Env) (st : BotState) (u : String)
    (osid : Option String) (sid : String) (st1 : BotState) (h0 : List Turn)
    (hrp : get_or_create_session env st osid = (sid, st1))
    (hh0 : histOf st1 sid = some h0) :
    (∀ r, (chat env st u osid).result = .ok r → r.session_id = sid ∧
        histOf (chat env st u osid).state sid =
          some (h0 ++ [⟨"user", Json.str u⟩, ⟨"assistant", r.response⟩]))
    ∧ (∀ e, (chat env st u osid).result = .error e →
        histOf (chat env st u osid).state sid =
          some (h0 ++ [⟨"user", Json.str u⟩])) := by
  obtain ⟨sess, hl, hch⟩ :
      ∃ sess, st1.sessions.lookup sid = some sess ∧ sess.conversation_history = h0 := by
    unfold histOf at hh0
    cases hl0 : st1.sessions.lookup sid with
    | none =>
      rw [hl0] at hh0
      simp at hh0
    | some s0 =>
      rw [hl0] at hh0
      simp at hh0
      exact ⟨s0, rfl, hh0⟩
  subst hch
  exact chat_hist_shape env st u osid sid st1 sess hrp hl

/-- Witness for C1: with both adapters down, the fallback reply is returned
and the fresh session ends with exactly the user and assistant turns. -/
theorem chat_appends_user_then_assistant_witness :
    (chat envW1 st_empty "hi" none).result =
      .ok { response := Json.str fallback_text, session_id := "w1", source := "fallback" } ∧
    histOf (chat envW1 st_empty "hi" none).state "w1" =
      some ([] ++ [⟨"user", Json.str "hi"⟩, ⟨"assistant", Json.str fallback_text⟩]) := by
  have h := (chat_appends_user_then_assistant envW1 st_empty "hi" none "w1" _ [] rfl rfl).1
    { response := Json.str fallback_text, session_id := "w1", source := "fallback" } rfl
  exact ⟨rfl, h.2⟩

/-- C2 (counterexample): a successful classification body with `output`
present but an empty `generic` list is not absorbed: `chat` propagates an
`IndexError` instead of falling back. -/
theorem chat_raises_on_malformed_cex :
    (chat envC2 st_empty "hello" none).result = .error .indexError := by
  rfl

/-- C2 (amended): `chat` never raises when the classification adapter fails
(returns `None`) or when its result forces the generation path; on those
paths the worst user-visible outcome is the fixed fallback apology text.
Only a truthy, markerless classification body with a malformed `output`
shape can raise. -/
theorem chat_absorbs_failures_amended (env : Env) (st : BotState) (u : String)
    (osid : Option String)
    (habs : get_assistant_intent env = none ∨ needsGen env = true) :
    ∃ r, (chat env st u osid).result = .ok r ∧
      (r.source = "model" ∨ (r.source = "fallback" ∧ r.response = Json.str fallback_text)) := by
  have hng : needsGen env = true := by
    rcases habs with h | h
    · simp [needsGen, h]
    · exact h
  obtain ⟨sess, hl⟩ := resolve_stores env st osid
  rcases hrp : get_or_create_session env st osid with ⟨sid, st1⟩
  rw [hrp] at hl
  simp only [chat, hrp, hl, hng]
  repeat' split
  all_goals simp_all [chat_fallback]

/-- Witness for C2: an unavailable classification upstream is absorbed and
the call returns normally. -/
theorem chat_absorbs_failures_amended_witness :
    ∃ r, (chat envW2 st_empty "x" none).result = .ok r ∧
      (r.source = "model" ∨ (r.source = "fallback" ∧ r.response = Json.str fallback_text)) :=
  chat_absorbs_failures_amended envW2 st_empty "x" none (Or.inl rfl)

/-- C3 (counterexample): a reply produced by the generation adapter carries
`source='model'`, which is none of the three values `intent_service`,
`generation_service`, `fallback` named by the claim. -/
theorem chat_source_literal_cex :
    (chat envC3 st_empty "hi" none).result =
      .ok { response := Json.str "ok", session_id := "c3", source := "model" } ∧
    ¬("model" = "intent_service" ∨ "model" = "generation_service" ∨ "model" = "fallback") := by
  constructor
  · rfl
  · decide

/-- C3 (amended): every normally returned result carries one of the three
source values `model`, `assistant`, `fallback` (the code's literals for the
generation, classification and fallback paths); `model` occurs exactly with a
successful generation call whose text is the response, `assistant` with a
direct classification reply and no generation call, and `fallback` always
carries the fixed apology. -/
theorem chat_source_values_amended (env : Env) (st : BotState) (u : String)
    (osid : Option String) :
    ∀ r, (chat env st u osid).result = .ok r →
      (r.source = "model" ∨ r.source = "assistant" ∨ r.source = "fallback") ∧
      (r.source = "model" → needsGen env = true ∧ (chat env st u osid).genCalls = 1 ∧
        ∃ s, modelResult env = some s ∧ r.response = Json.str s) ∧
      (r.source = "assistant" → needsGen env = false ∧ (chat env st u osid).genCalls = 0 ∧
        ∃ j, get_assistant_intent env = some j ∧ extractAssistantText j = .ok r.response) ∧
      (r.source = "fallback" → r.response = Json.str fallback_text) := by
  obtain ⟨sess, hl⟩ := resolve_stores env st osid
  rcases hrp : get_or_create_session env st osid with ⟨sid, st1⟩
  rw [hrp] at hl
  simp only [chat, hrp, hl]
  repeat' split
  all_goals intro r hr
  all_goals simp_all [chat_fallback, gen_result_eq]
  all_goals subst hr
  all_goals simp_all [← gen_result_eq]

/-- Witness for C3: a direct classification reply carries `source='assistant'`,
one of the three code literals. -/
theorem chat_source_values_amended_witness :
    (chat envW3 st_empty "q" none).result =
      .ok { response := Json.str "direct reply", session_id := "w3", source := "assistant" } ∧
    ("assistant" = "model" ∨ "assistant" = "assistant" ∨ "assistant" = "fallback") := by
  have h := chat_source_values_amended envW3 st_empty "q" none
    { response := Json.str "direct reply", session_id := "w3", source := "assistant" } rfl
  exact ⟨rfl, h.1⟩

/-- C4: session resolution returns a live supplied id unchanged with its
`last_accessed` refreshed; an omitted, unknown or at-least-30-minutes-stale id
yields the fresh uuid, distinct from the supplied id and from every stored
session, bound to a new session with empty history and current timestamps;
the operation never fails. (Session ids are uuid draws: the fresh id is
assumed unused and ids are assumed nonempty strings.) -/
theorem resolve_or_create_spec (env : Env) (st : BotState) (osid : Option String)
    (hfresh : st.sessions.lookup env.freshId = none)
    (hne : ∀ s, osid = some s → env.freshId ≠ s)
    (hnonempty : ∀ s, osid = some s → s ≠ "") :
    (∀ s sess, osid = some s → st.sessions.lookup s = some sess →
        env.now - sess.last_accessed < session_timeout →
        (get_or_create_session env st osid).1 = s ∧
        ((get_or_create_session env st osid).2).sessions.lookup s =
          some { sess with last_accessed := env.now })
    ∧ ((osid = none ∨ (∃ s, osid = some s ∧ st.sessions.lookup s = none) ∨
        (∃ s sess, osid = some s ∧ st.sessions.lookup s = some sess ∧
          session_timeout ≤ env.now - sess.last_accessed)) →
        (get_or_create_session env st osid).1 = env.freshId ∧
        st.sessions.lookup (get_or_create_session env st osid).1 = none ∧
        (∀ s, osid = some s → (get_or_create_session env st osid).1 ≠ s) ∧
        ((get_or_create_session env st osid).2).sessions.lookup env.freshId =
          some { created_at := env.now, last_accessed := env.now, context := [],
                 conversation_history := [] }) := by
  constructor
  · intro s sess hs hlook hlive
    subst hs
    have hsne : s ≠ "" := hnonempty s rfl
    have hb : (s != "") = true := bne_iff_ne.mpr hsne
    simp [get_or_create_session, hb, hlook, hlive, lookup_updList_self]
  · intro hcase
    have hgoal : get_or_create_session env st osid = create_session env st := by
      rcases hcase with h | ⟨s, hs, hlook⟩ | ⟨s, sess, hs, hlook, hstale⟩
      · subst h
        rfl
      · subst hs
        by_cases hse : s = ""
        · subst hse
          simp [get_or_create_session]
        · have hb : (s != "") = true := bne_iff_ne.mpr hse
          simp [get_or_create_session, hb, hlook]
      · subst hs
        have hse : s ≠ "" := hnonempty s rfl
        have hb : (s != "") = true := bne_iff_ne.mpr hse
        have hnl : ¬(env.now - sess.last_accessed < session_timeout) := by omega
        simp [get_or_create_session, hb, hlook, hnl]
    rw [hgoal]
    refine ⟨rfl, hfresh, ?_, ?_⟩
    · intro s hs
      exact hne s hs
    · simp [create_session, lookup_updList_self]

/-- Witness for C4: a 5-minute-old session is returned unchanged, and an
omitted id yields the fresh uuid. -/
theorem resolve_or_create_spec_witness :
    (get_or_create_session envW4 stW4 (some "a")).1 = "a" ∧
    (get_or_create_session envW4 stW4 none).1 = "f" := by
  constructor
  · have h := (resolve_or_create_spec envW4 stW4 (some "a") rfl
      (by intro s hs; cases hs; decide)
      (by intro s hs; cases hs; decide)).1 "a"
      { created_at := 0, last_accessed := 0, context := [], conversation_history := [] }
      rfl rfl (by decide)
    exact h.1
  · have h := (resolve_or_create_spec envW4 stW4 none rfl
      (by intro s hs; cases hs)
      (by intro s hs; cases hs)).2 (Or.inl rfl)
    exact h.1

/-- C5 (counterexample): on a 401 whose token refresh itself fails, the
refresh exception is swallowed and no retry request is issued — one request,
not the re-issued second request the claim asserts. -/
theorem gen_refresh_failure_cex :
    (get_model_response envC5 st_empty "x" []).refreshCalls = 1 ∧
    (get_model_response envC5 st_empty "x" []).result = none ∧
    ¬((get_model_response envC5 st_empty "x" []).requests = 2) := by
  refine ⟨rfl, rfl, ?_⟩
  intro h
  simp [get_model_response, envC5] at h

/-- C5 (amended): a 401 triggers exactly one token-refresh attempt; if the
refresh succeeds, exactly one identical retry is issued and its response is
final: a 200 retry with a well-formed body yields its stripped text, and any
other retry outcome (a malformed 200 body, a non-200 status, or a network
exception) yields null; if the refresh fails, null is returned with no retry;
no other first status and no network error triggers a refresh or retry; two
consecutive 401s yield null with exactly one refresh. -/
theorem gen_auth_retry_policy_amended (env : Env) (st : BotState) (u : String)
    (hist : List Turn) :
    (∀ body, env.genHttp1 = .resp 401 body →
        (get_model_response env st u hist).refreshCalls = 1 ∧
        (env.iamHttp = none → (get_model_response env st u hist).requests = 1 ∧
          (get_model_response env st u hist).result = none) ∧
        (∀ tok, env.iamHttp = some tok →
          (get_model_response env st u hist).requests = 2 ∧
          (∀ b2 s, env.genHttp2 = .resp 200 b2 → extractGenText b2 = .ok s →
            (get_model_response env st u hist).result = some s) ∧
          (∀ b2 e, env.genHttp2 = .resp 200 b2 → extractGenText b2 = .error e →
            (get_model_response env st u hist).result = none) ∧
          (∀ s2 b2, env.genHttp2 = .resp s2 b2 → s2 ≠ 200 →
            (get_model_response env st u hist).result = none) ∧
          (env.genHttp2 = .exn → (get_model_response env st u hist).result = none)))
    ∧ (∀ s1 body, env.genHttp1 = .resp s1 body → s1 ≠ 401 →
        (get_model_response env st u hist).refreshCalls = 0 ∧
        (get_model_response env st u hist).requests = 1)
    ∧ (env.genHttp1 = .exn → (get_model_response env st u hist).refreshCalls = 0 ∧
        (get_model_response env st u hist).requests = 1) := by
  refine ⟨?_, ?_, ?_⟩
  · intro body h1
    simp only [get_model_response, h1]
    refine ⟨?_, ?_, ?_⟩
    · cases hi : env.iamHttp <;> cases h2 : env.genHttp2 <;> simp [hi, h2] <;> repeat' split
      all_goals simp_all
    · intro hi
      simp [hi]
    · intro tok hi
      refine ⟨?_, ?_, ?_, ?_, ?_⟩
      · cases h2 : env.genHttp2 <;> simp [hi, h2] <;> repeat' split
        all_goals simp_all
      · intro b2 s h2 hex
        simp [hi, h2, hex]
      · intro b2 e h2 hex
        simp [hi, h2, hex]
      · intro s2 b2 h2 hs2
        have hb : (s2 == 200) = false := beq_eq_false_iff_ne.mpr hs2
        simp [hi, h2, hb]
      · intro h2
        simp [hi, h2]
  · intro s1 body h1 hs1
    have hb : (s1 == 401) = false := beq_eq_false_iff_ne.mpr hs1
    simp only [get_model_response, h1, hb]
    split <;> repeat' split
    all_goals simp_all
  · intro h1
    simp [get_model_response, h1]

/-- Witness for C5: 401 then a successful refresh and a 200 retry gives one
refresh, two requests, and the retried (stripped) text. -/
theorem gen_auth_retry_policy_amended_witness :
    (get_model_response envW5 st_empty "x" []).refreshCalls = 1 ∧
    (get_model_response envW5 st_empty "x" []).requests = 2 ∧
    (get_model_response envW5 st_empty "x" []).result = some "fine" := by
  have h := (gen_auth_retry_policy_amended envW5 st_empty "x" []).1 (Json.obj []) rfl
  refine ⟨h.1, (h.2.2 "tok2" rfl).1, ?_⟩
  exact (h.2.2 "tok2" rfl).2.1 _ "fine" rfl rfl

/-- C6: whenever the classification result's string rendering contains the
needs-generation marker, `chat` invokes the generation adapter exactly once
— also when the result carries a direct textual reply — and the returned
source is never `assistant`, regardless of generation's own outcome. -/
theorem marker_forces_generation (env : Env) (st : BotState) (u : String)
    (osid : Option String) (j : Json)
    (hj : get_assistant_intent env = some j)
    (hm : strHasSub (pyStr j) marker = true) :
    (chat env st u osid).genCalls = 1 ∧
    (∀ r, (chat env st u osid).result = .ok r →
      r.source = "model" ∨ r.source = "fallback") := by
  have ht := marker_needs_truthy j hm
  have hng : needsGen env = true := by
    simp [needsGen, hj, ht, hm]
  obtain ⟨sess, hl⟩ := resolve_stores env st osid
  rcases hrp : get_or_create_session env st osid with ⟨sid, st1⟩
  rw [hrp] at hl
  simp only [chat, hrp, hl, hng]
  repeat' split
  all_goals simp_all [chat_fallback]

/-- Witness for C6: a markered result that also carries a direct reply still
goes to generation (which fails here, so the fallback is returned, not the
direct text). -/
theorem marker_forces_generation_witness :
    (chat envW6 st_empty "help" none).genCalls = 1 ∧
    ((chat envW6 st_empty "help" none).result =
      .ok { response := Json.str fallback_text, session_id := "w6", source := "fallback" }) := by
  have h := marker_forces_generation envW6 st_empty "help" none _ rfl (by decide)
  exact ⟨h.1, rfl⟩

/-- C7: when the classification adapter yields `None` and the generation
adapter yields `None`, every `chat` call returns the fixed apology with
`source='fallback'` and still appends both the user turn and the apology
assistant turn to the resolved session's history. -/
theorem both_adapters_down_fallback (env : Env) (st : BotState) (u : String)
    (osid : Option String)
    (ha : get_assistant_intent env = none)
    (hg : modelResult env = none) :
    (chat env st u osid).result =
      .ok { response := Json.str fallback_text,
            session_id := (get_or_create_session env st osid).1, source := "fallback" } ∧
    (∀ h0, histOf (get_or_create_session env st osid).2 (get_or_create_session env st osid).1 =
        some h0 →
      histOf (chat env st u osid).state (get_or_create_session env st osid).1 =
        some (h0 ++ [⟨"user", Json.str u⟩, ⟨"assistant", Json.str fallback_text⟩])) := by
  have hng : needsGen env = true := by
    simp [needsGen, ha]
  obtain ⟨sess, hl⟩ := resolve_stores env st osid
  rcases hrp : get_or_create_session env st osid with ⟨sid, st1⟩
  rw [hrp] at hl
  have hres : (chat env st u osid).result =
      .ok { response := Json.str fallback_text, session_id := sid, source := "fallback" } := by
    simp only [chat, hrp, hl, hng]
    repeat' split
    all_goals simp_all [chat_fallback, gen_result_eq]
  constructor
  · simpa [hrp] using hres
  · intro h0 hh0
    simp only [histOf] at hh0
    rw [hl] at hh0
    simp at hh0
    have h := (chat_hist_shape env st u osid sid st1 sess hrp hl).1 _ hres
    simpa [hh0] using h.2

/-- Witness for C7: classification raises, generation gets a 503: the apology
is returned and both turns are appended. -/
theorem both_adapters_down_fallback_witness :
    (chat envW7 st_empty "hey" none).result =
      .ok { response := Json.str fallback_text, session_id := "w7", source := "fallback" } ∧
    histOf (chat envW7 st_empty "hey" none).state "w7" =
      some ([] ++ [⟨"user", Json.str "hey"⟩, ⟨"assistant", Json.str fallback_text⟩]) := by
  have h := both_adapters_down_fallback envW7 st_empty "hey" none rfl rfl
  exact ⟨h.1, h.2 [] rfl⟩

set_option maxRecDepth 8000 in
/-- C8: the prompt sent to the generation service is exactly the fixed
instruction preamble, the four hard-coded few-shot pairs, the last two turns
of the supplied history rendered as `role: content` joined by single spaces,
the current user text, and the trailing cue token, in that order; moreover
the prompt depends on the history only through its last two turns. -/
theorem prompt_structure (env : Env) (st : BotState) (u : String) (h : List Turn) :
    (get_model_response env st u h).prompt =
      prompt_preamble ++ prompt_example ex1_input ex1_output ++
        prompt_example ex2_input ex2_output ++ prompt_example ex3_input ex3_output ++
        prompt_example ex4_input ex4_output ++ prompt_context_header ++
        String.intercalate " " ((lastTwo h).map renderTurn) ++
        prompt_user_section u ++ prompt_cue
    ∧ (∀ h2, lastTwo h2 = lastTwo h →
        (get_model_response env st u h2).prompt = (get_model_response env st u h).prompt) := by
  constructor
  · rw [gen_prompt_eq]
    simp only [buildPrompt, prompt_preamble, prompt_example, ex1_input, ex1_output, ex2_input,
      ex2_output, ex3_input, ex3_output, ex4_input, ex4_output, prompt_context_header,
      prompt_user_section, prompt_cue, ← String.append_assoc]
    simp
    rw [show ("\"\nOutput:\"\n" : String) = "\"\n" ++ "Output:\"\n" from rfl]
    simp only [← String.append_assoc]
  · intro h2 hsame
    rw [gen_prompt_eq, gen_prompt_eq]
    unfold buildPrompt
    rw [hsame]

/-- Witness for C8: a three-turn history and its own last two turns produce
the identical prompt. -/
theorem prompt_structure_witness :
    (get_model_response envW8 st_empty "u" [turnB, turnC]).prompt =
      (get_model_response envW8 st_empty "u" [turnA, turnB, turnC]).prompt :=
  (prompt_structure envW8 st_empty "u" [turnA, turnB, turnC]).2 [turnB, turnC] rfl

/-- C9: `chat_with_bot` always calls `chat` with `session_id` left at its
default `None`, so every call that returns normally creates a brand-new
session (the fresh uuid) whose history is exactly the two turns of this call;
multi-turn continuity is unreachable through the wrapper. -/
theorem chat_with_bot_fresh_session (env : Env) (st : BotState) (m : String) :
    chat_with_bot env st m = chat env st m none ∧
    (∀ r, (chat_with_bot env st m).result = .ok r →
      r.session_id = env.freshId ∧
      histOf (chat_with_bot env st m).state env.freshId =
        some [⟨"user", Json.str m⟩, ⟨"assistant", r.response⟩]) := by
  constructor
  · rfl
  · have hrp : get_or_create_session env st none =
        (env.freshId, (create_session env st).2) := rfl
    have hl : ((create_session env st).2).sessions.lookup env.freshId =
        some { created_at := env.now, last_accessed := env.now, context := [],
               conversation_history := [] } := by
      simp [create_session, lookup_updList_self]
    intro r hr
    have h := (chat_hist_shape env st m none env.freshId (create_session env st).2 _ hrp hl).1 r hr
    exact ⟨h.1, by simpa using h.2⟩

/-- Witness for C9: a wrapper call returns the fresh id `w9` and a two-turn
history. -/
theorem chat_with_bot_fresh_session_witness :
    (chat_with_bot envW9 st_empty "hello").result =
      .ok { response := Json.str fallback_text, session_id := "w9", source := "fallback" } ∧
    histOf (chat_with_bot envW9 st_empty "hello").state "w9" =
      some [⟨"user", Json.str "hello"⟩, ⟨"assistant", Json.str fallback_text⟩] := by
  have h := (chat_with_bot_fresh_session envW9 st_empty "hello").2
    { response := Json.str fallback_text, session_id := "w9", source := "fallback" } rfl
  exact ⟨rfl, h.2⟩

/-- C10 (counterexample): an empty (falsy) 200 classification body lacks the
marker substring, yet `chat` still takes the generation path, refuting the
claim that every marker-free response avoids generation. -/
theorem falsy_body_forces_generation_cex :
    strHasSub (pyStr (Json.obj [])) marker = false ∧
    (chat envC10 st_empty "hi" none).genCalls = 1 := by
  constructor
  · decide
  · rfl

/-- C10 (amended): for a successful classification body, the generation
decision is the substring test of the marker over the body's string
rendering — anywhere, including inside reply text — except that a falsy
(empty) body is treated like a failed call and always forces generation:
`genCalls` is 1 for a truthy body containing the marker, 0 for a truthy body
without it, and 1 for a falsy body. -/
theorem marker_substring_decision_amended (env : Env) (st : BotState) (u : String)
    (osid : Option String) (j : Json)
    (hj : get_assistant_intent env = some j) :
    (chat env st u osid).genCalls =
      (if pyTruthy j then (if strHasSub (pyStr j) marker then 1 else 0) else 1) := by
  have hng : needsGen env = (if pyTruthy j then strHasSub (pyStr j) marker else true) := by
    simp [needsGen, hj]
  obtain ⟨sess, hl⟩ := resolve_stores env st osid
  rcases hrp : get_or_create_session env st osid with ⟨sid, st1⟩
  rw [hrp] at hl
  simp only [chat, hrp, hl, hng]
  cases hpt : pyTruthy j <;> cases hms : strHasSub (pyStr j) marker <;> simp_all
  all_goals repeat' split
  all_goals simp_all [chat_fallback]

/-- Witness for C10: the marker occurring only inside a reply's content text
still sends the call down the generation path. -/
theorem marker_substring_decision_amended_witness :
    (chat envW10 st_empty "x" none).genCalls = 1 := by
  have h := marker_substring_decision_amended envW10 st_empty "x" none _ rfl
  rw [h]
  decide
